import Mathlib

/-!
Shallow embedding of `src/main.go` from CodedMasonry/just_setup_git.

The program is a linear pipeline: an interactive form (`promptForm`)
populates six package-level variables, then `setupGit`, optionally
`setupSSH`, optionally `setupSigning` issue external commands, and
finally either `almostDone` (summary) or a plain success line runs.

External effects (command exit statuses, file reads) are modelled by a
`World` oracle; user interaction is modelled by a `FormInput` record of
the final answers.  Each step is embedded as a pure function returning
the list of observable events it produces together with the `error`
value the Go function returns.  `mainRun` composes them exactly as
`func main` does, including the two slips visible in the source:
the unconditional reassignment `sshPath = "/home/mason/.ssh/id_ed25519"`
on line 52, and the discarded error return of `almostDone()` on line 55.
-/

namespace JustSetupGit

/-- Result of Go's `user.Current()`: on success, a user record with a
home directory (`HomeDir`). A failed lookup returns a nil pointer. -/
structure GoUser where
  homeDir : String
deriving DecidableEq

/-- The final answers the user gives to the `huh` form in `promptForm`.
`scopeGlobal` is the git-scope selection (`--global` vs `--local`);
`sshPathEdit` is `none` when the user keeps the pre-filled default key
path and `some s` when the user replaces the field content with `s`
(the field has no `Validate`, so any string, including `""`, can be
submitted); `cancelled` models the user aborting the form. -/
structure FormInput where
  scopeGlobal : Bool
  username : String
  email : String
  ignoreSSH : Bool
  sshPathEdit : Option String
  signing : Bool
  cancelled : Bool
deriving DecidableEq

/-- The six package-level configuration variables of `main.go` as they
stand after `promptForm` returns. -/
structure Config where
  gitContext : String
  username : String
  email : String
  ignoreSSH : Bool
  sshPath : String
  signing : Bool
deriving DecidableEq

/-- Oracle for the external world: exit status of each invoked command
(`true` = exit 0) and the filesystem contents seen by `os.ReadFile`
(`none` = read error). -/
structure World where
  gitConfigOk : String → String → String → Bool
  sshKeygenOk : String → String → Bool
  sshAddOk : String → Bool
  readFile : String → Option String

/-- Observable events of a run, in program order: each external command
invocation (recorded with its arguments at the moment of invocation),
each file read, and each line of terminal output. -/
inductive Event where
  | gitConfig (scope key value : String)
  | sshKeygen (path comment : String)
  | sshAdd (path : String)
  | readPub (path : String)
  | printSuccess (msg : String)
  | printWarning (msg : String)
  | printLine (msg : String)
  | printFatal
deriving DecidableEq

/-- The Go `error` values the steps can return. -/
inductive GoError where
  | cmdError (desc : String)
  | keygenFailed
  | ioError (path : String)
  | abortError
deriving DecidableEq

/-- Terminal state of the process. `exitNonZero` is `log.Fatal` (exit
status 1) reached through the program's `panic` helper; `runtimePanic`
is the Go runtime's nil-pointer panic; `promptLoop` marks form answers
that fail validation, which the real form re-prompts in place (the
program never proceeds with them). -/
inductive Outcome where
  | exitZero
  | exitNonZero
  | runtimePanic
  | promptLoop
deriving DecidableEq

/-- An entire run: its event trace and how the process ended. -/
structure RunResult where
  events : List Event
  outcome : Outcome
deriving DecidableEq

/-- The `Validate` closure on the username input (main.go:103-108):
reject exactly the empty string. -/
def usernameValidate (str : String) : Option String :=
  if str = "" then some "Username Required" else none

/-- Go's `strings.Contains(s, needle)` for a one-character needle:
does the character occur in the string? -/
def containsChar (s : String) (c : Char) : Bool :=
  s.data.contains c

/-- The `Validate` closure on the email input (main.go:116-121):
reject unless the string contains both an `@` and a `.`
(`strings.Contains` with a one-character needle). -/
def emailValidate (str : String) : Option String :=
  if !(containsChar str '@') || !(containsChar str '.') then
    some "Not valid email address"
  else none

/-- The inferred default key path (main.go:82):
`fmt.Sprintf("%s/.ssh/id_ed25519", currentUser.HomeDir)`. -/
def defaultKeyPath (u : GoUser) : String :=
  u.homeDir ++ "/.ssh/id_ed25519"

/-- The configuration the form leaves in the package-level variables
when it completes: the selected scope flag, the typed username/email,
the SSH selections, and the key-path field content (the pre-filled
default unless the user replaced it). -/
def mkConfig (u : GoUser) (i : FormInput) : Config :=
  { gitContext := if i.scopeGlobal then "--global" else "--local"
    username := i.username
    email := i.email
    ignoreSSH := i.ignoreSSH
    sshPath := i.sshPathEdit.getD (defaultKeyPath u)
    signing := i.signing }

/-- Result of `promptForm`. `nilPanic` is the nil-pointer dereference
`currentUser.HomeDir` performed on main.go:82 when `user.Current()`
failed on line 81 (the error assigned to `err` there is never
checked). -/
inductive PromptResult where
  | nilPanic
  | aborted
  | invalid
  | ok (cfg : Config)
deriving DecidableEq

/-- `promptForm` (main.go:79-152): infer the default key path from the
current user (dereferencing the lookup result unconditionally), then
run the form. A cancelled form returns `huh`'s abort error; answers
that fail a `Validate` closure are re-prompted in place, so the form
only ever completes with validated answers. -/
def promptForm (lookup : Option GoUser) (i : FormInput) : PromptResult :=
  match lookup with
  | none => PromptResult.nilPanic
  | some u =>
    if i.cancelled then PromptResult.aborted
    else if (usernameValidate i.username).isSome then PromptResult.invalid
    else if (emailValidate i.email).isSome then PromptResult.invalid
    else PromptResult.ok (mkConfig u i)

/-- `setupGit` (main.go:155-169). Note the source passes `username` as
the value of the `user.email` write on line 162. -/
def setupGit (w : World) (cfg : Config) : List Event × Option GoError :=
  if w.gitConfigOk cfg.gitContext "user.name" cfg.username then
    if w.gitConfigOk cfg.gitContext "user.email" cfg.username then
      ([Event.gitConfig cfg.gitContext "user.name" cfg.username,
        Event.printSuccess "Successfully set git username",
        Event.gitConfig cfg.gitContext "user.email" cfg.username,
        Event.printSuccess "Successfully set git email"], none)
    else
      ([Event.gitConfig cfg.gitContext "user.name" cfg.username,
        Event.printSuccess "Successfully set git username",
        Event.gitConfig cfg.gitContext "user.email" cfg.username],
       some (GoError.cmdError "git config user.email"))
  else
    ([Event.gitConfig cfg.gitContext "user.name" cfg.username],
     some (GoError.cmdError "git config user.name"))

/-- `generateSSH` (main.go:171-185): `ssh-keygen -t ed25519 -f sshPath
-C email` with the terminal passed through. -/
def generateSSH (w : World) (cfg : Config) : List Event × Option GoError :=
  if w.sshKeygenOk cfg.sshPath cfg.email then
    ([Event.sshKeygen cfg.sshPath cfg.email,
      Event.printSuccess "Successfully generated ssh key"], none)
  else
    ([Event.sshKeygen cfg.sshPath cfg.email], some GoError.keygenFailed)

/-- `setupSSH` (main.go:188-200): generate the key (fatal on failure),
then `ssh-add`; an `ssh-add` failure only prints a warning and the
function still returns nil. -/
def setupSSH (w : World) (cfg : Config) : List Event × Option GoError :=
  match generateSSH w cfg with
  | (evs, some e) => (evs, some e)
  | (evs, none) =>
    if w.sshAddOk cfg.sshPath then
      (evs ++ [Event.sshAdd cfg.sshPath], none)
    else
      (evs ++ [Event.sshAdd cfg.sshPath,
               Event.printWarning ("Warning Failed to add SSH key using ssh-add; if the key is not already added, try running ssh-add " ++ cfg.sshPath)],
       none)

/-- `setupSigning` (main.go:203-230): generate a key first if the SSH
step was skipped, then three git config writes in order: `gpg.format
ssh`, `user.signingkey sshPath`, `commit.gpgsign true`, each fatal on
failure. -/
def setupSigning (w : World) (cfg : Config) : List Event × Option GoError :=
  match (if cfg.ignoreSSH then generateSSH w cfg else ([], none)) with
  | (evs, some e) => (evs, some e)
  | (evs, none) =>
    if w.gitConfigOk cfg.gitContext "gpg.format" "ssh" then
      if w.gitConfigOk cfg.gitContext "user.signingkey" cfg.sshPath then
        if w.gitConfigOk cfg.gitContext "commit.gpgsign" "true" then
          (evs ++ [Event.gitConfig cfg.gitContext "gpg.format" "ssh",
                   Event.printSuccess "Successfully set git signing type",
                   Event.gitConfig cfg.gitContext "user.signingkey" cfg.sshPath,
                   Event.printSuccess "Successfully set git signing key",
                   Event.gitConfig cfg.gitContext "commit.gpgsign" "true",
                   Event.printSuccess "Successfully set git to sign commits by default"],
           none)
        else
          (evs ++ [Event.gitConfig cfg.gitContext "gpg.format" "ssh",
                   Event.printSuccess "Successfully set git signing type",
                   Event.gitConfig cfg.gitContext "user.signingkey" cfg.sshPath,
                   Event.printSuccess "Successfully set git signing key",
                   Event.gitConfig cfg.gitContext "commit.gpgsign" "true"],
           some (GoError.cmdError "git config commit.gpgsign"))
      else
        (evs ++ [Event.gitConfig cfg.gitContext "gpg.format" "ssh",
                 Event.printSuccess "Successfully set git signing type",
                 Event.gitConfig cfg.gitContext "user.signingkey" cfg.sshPath],
         some (GoError.cmdError "git config user.signingkey"))
    else
      (evs ++ [Event.gitConfig cfg.gitContext "gpg.format" "ssh"],
       some (GoError.cmdError "git config gpg.format"))

/-- The instruction lines printed by `almostDone` (main.go:239-249),
with `pub` the bytes read from the public key file; the colour styling
is cosmetic and dropped, and punctuation of the static text is
simplified. -/
def almostDoneLines (pub : String) : List String :=
  ["\nAlmost Done!",
   "If you are using github, navigate to https://github.com/settings/keys and press New SSH key",
   "If you set up SSH, set Key type to Authentication Key",
   "If you set up Signing, set Key type to Signing Key",
   "You have to create seperate keys on github, but can use the same key on your machine\n",
   "Key:",
   pub,
   "\nIf you setup SSH, to avoid re-typing ssh key to push, it is recommended to add ssh-agent to your command line settings",
   "eval \"$(ssh-agent -s)\""]

/-- `almostDone` (main.go:233-255): read `sshPath + ".pub"`; on read
failure return the error, otherwise print the instruction lines with
the literal file contents. -/
def almostDone (w : World) (cfg : Config) : List Event × Option GoError :=
  match w.readFile (cfg.sshPath ++ ".pub") with
  | none =>
    ([Event.readPub (cfg.sshPath ++ ".pub")],
     some (GoError.ioError (cfg.sshPath ++ ".pub")))
  | some pub =>
    (Event.readPub (cfg.sshPath ++ ".pub") ::
       (almostDoneLines pub).map Event.printLine, none)

/-- The hardcoded path assigned to `sshPath` on main.go:52, after the
setup steps and before the summary. -/
def hardcodedSSHPath : String := "/home/mason/.ssh/id_ed25519"

/-- The body of `func main` after `promptForm` succeeded
(main.go:37-58): `setupGit`, then `setupSSH` unless skipped, then
`setupSigning` if selected — each followed by `panic(err)` (the fatal
banner plus `log.Fatal`) on error — then the line-52 reassignment of
`sshPath`, and finally `almostDone()` (whose returned error `main`
discards) when SSH or signing was configured, else a plain
`success("Finished!")`. -/
def runFromConfig (w : World) (cfg : Config) : RunResult :=
  if (setupGit w cfg).2.isSome then
    ⟨(setupGit w cfg).1 ++ [Event.printFatal], Outcome.exitNonZero⟩
  else
    let sshStep := if cfg.ignoreSSH then (([] : List Event), (none : Option GoError))
                   else setupSSH w cfg
    if sshStep.2.isSome then
      ⟨(setupGit w cfg).1 ++ sshStep.1 ++ [Event.printFatal], Outcome.exitNonZero⟩
    else
      let signStep := if cfg.signing then setupSigning w cfg
                      else (([] : List Event), (none : Option GoError))
      if signStep.2.isSome then
        ⟨(setupGit w cfg).1 ++ sshStep.1 ++ signStep.1 ++ [Event.printFatal],
         Outcome.exitNonZero⟩
      else
        if !cfg.ignoreSSH || cfg.signing then
          ⟨(setupGit w cfg).1 ++ sshStep.1 ++ signStep.1 ++
             (almostDone w { cfg with sshPath := hardcodedSSHPath }).1,
           Outcome.exitZero⟩
        else
          ⟨(setupGit w cfg).1 ++ sshStep.1 ++ signStep.1 ++
             [Event.printSuccess "Finished!"],
           Outcome.exitZero⟩

/-- `func main` (main.go:32-59). -/
def mainRun (w : World) (lookup : Option GoUser) (i : FormInput) : RunResult :=
  match promptForm lookup i with
  | PromptResult.nilPanic => ⟨[], Outcome.runtimePanic⟩
  | PromptResult.aborted => ⟨[Event.printFatal], Outcome.exitNonZero⟩
  | PromptResult.invalid => ⟨[], Outcome.promptLoop⟩
  | PromptResult.ok cfg => runFromConfig w cfg

/-- Form answers that the form accepts: not cancelled and both
validators pass. -/
def validInput (i : FormInput) : Prop :=
  i.cancelled = false ∧ usernameValidate i.username = none ∧
    emailValidate i.email = none

/-- Is this event an invocation of key generation? -/
def isKeygen : Event → Bool
  | Event.sshKeygen _ _ => true
  | _ => false

/-- Is this event a git configuration write? -/
def isGitConfigEv : Event → Bool
  | Event.gitConfig _ _ _ => true
  | _ => false

/-- Is this event one of the three git signing configuration writes? -/
def isSigningWrite : Event → Bool
  | Event.gitConfig _ key _ =>
    key = "gpg.format" || key = "user.signingkey" || key = "commit.gpgsign"
  | _ => false

/-- Is this event a key generation or a git signing configuration
write? -/
def isKeyOrSigning (e : Event) : Bool := isKeygen e || isSigningWrite e

/-- Is this event a read of a public key file? -/
def isReadPub : Event → Bool
  | Event.readPub _ => true
  | _ => false

/-- Is this event a warning line? -/
def isWarning : Event → Bool
  | Event.printWarning _ => true
  | _ => false

/-- Number of key-generation invocations in a trace. -/
def countKeygen (l : List Event) : Nat := (l.filter isKeygen).length

/-- Did the recorded git configuration command succeed in world `w`?
(Vacuously true for non-gitConfig events.) -/
def gitEventOk (w : World) : Event → Bool
  | Event.gitConfig s k v => w.gitConfigOk s k v
  | _ => true

/-- A world in which every external command succeeds and every file
read returns the fixed content "PUBKEYDATA". -/
def allOkWorld : World :=
  { gitConfigOk := fun _ _ _ => true
    sshKeygenOk := fun _ _ => true
    sshAddOk := fun _ => true
    readFile := fun _ => some "PUBKEYDATA" }

/-- A concrete user whose home directory is not the one hardcoded on
main.go:52. -/
def uAlice : GoUser := ⟨"/home/alice"⟩

/-- A concrete completed form: global scope, username `alice`, email
`alice@example.com`, SSH key requested at the default path, no
signing. -/
def inputDefault : FormInput :=
  { scopeGlobal := true, username := "alice", email := "alice@example.com",
    ignoreSSH := false, sshPathEdit := none, signing := false,
    cancelled := false }

/-- The configuration produced by `inputDefault` for `uAlice`. -/
def cfgDefault : Config := mkConfig uAlice inputDefault

/-- A world whose filesystem distinguishes the hardcoded key file from
every other file, so a read of the wrong path is observable. -/
def worldC2 : World :=
  { allOkWorld with
      readFile := fun f =>
        if f = "/home/mason/.ssh/id_ed25519.pub" then some "MASON-KEY"
        else some "USER-KEY" }

/-- The default form answers except that the user replaces the
pre-filled key path with an explicit path of their own. -/
def inputUserPath : FormInput :=
  { inputDefault with sshPathEdit := some "/home/alice/.ssh/mykey" }

/-- The run for `worldC2`, `uAlice` and `inputUserPath`. -/
def runC2 : RunResult := mainRun worldC2 (some uAlice) inputUserPath

/-- A world where every command succeeds but no file is readable. -/
def worldNoPub : World := { allOkWorld with readFile := fun _ => none }

/-- The run for `worldNoPub`, `uAlice` and `inputDefault`. -/
def runC3 : RunResult := mainRun worldNoPub (some uAlice) inputDefault

/-- The default form answers except that the user replaces the
pre-filled key path with the empty string (the field has no
validation, so this submission is accepted). -/
def inputEmptyPath : FormInput := { inputDefault with sshPathEdit := some "" }

/-- The default form answers except that SSH key creation is skipped
(signing is already off in `inputDefault`). -/
def inputSkip : FormInput := { inputDefault with ignoreSSH := true }

/-- A world in which exactly the `git config ... user.email ...`
invocation fails and everything else succeeds. -/
def worldGitFail : World :=
  { allOkWorld with gitConfigOk := fun _ k _ => !(k == "user.email") }

/-- A world in which `ssh-add` fails and everything else succeeds. -/
def worldAddFail : World := { allOkWorld with sshAddOk := fun _ => false }

end JustSetupGit

namespace JustSetupGit

/-- Dropping the last element preserves a predicate holding on every
element. -/
theorem all_of_dropLast {α} {p : α → Bool} {l : List α} (h : l.all p = true) :
    l.dropLast.all p = true := by
  rw [List.all_eq_true] at *
  exact fun x hx => h x ((List.dropLast_sublist l).subset hx)

/-- If a predicate holds on all of `a` and on all but the last element
of `b`, it holds on all but the last element of `a ++ b`. -/
theorem all_dropLast_append {α} {p : α → Bool} {a b : List α}
    (ha : a.all p = true) (hb : b.dropLast.all p = true) :
    ((a ++ b).dropLast).all p = true := by
  cases b with
  | nil => simpa using all_of_dropLast ha
  | cons x xs =>
    rw [List.dropLast_append_of_ne_nil _ (by simp)]
    simp only [List.all_append, ha, hb, Bool.and_self]

/-- A validly answered form completes, and the run is the post-prompt
pipeline on the collected configuration. -/
theorem mainRun_valid (w : World) (u : GoUser) (i : FormInput)
    (h : validInput i) :
    mainRun w (some u) i = runFromConfig w (mkConfig u i) := by
  obtain ⟨hc, hu, he⟩ := h
  simp [mainRun, promptForm, hc, hu, he]

/-- When both git identity writes succeed, `setupGit` returns nil and
its trace is the two writes with their success lines. -/
theorem setupGit_success (w : World) (cfg : Config)
    (h1 : w.gitConfigOk cfg.gitContext "user.name" cfg.username = true)
    (h2 : w.gitConfigOk cfg.gitContext "user.email" cfg.username = true) :
    setupGit w cfg =
      ([Event.gitConfig cfg.gitContext "user.name" cfg.username,
        Event.printSuccess "Successfully set git username",
        Event.gitConfig cfg.gitContext "user.email" cfg.username,
        Event.printSuccess "Successfully set git email"], none) := by
  simp [setupGit, h1, h2]

/-- `setupGit` issues no key generation and no signing write. -/
theorem setupGit_filter_keysign (w : World) (cfg : Config) :
    (setupGit w cfg).1.filter isKeyOrSigning = [] := by
  unfold setupGit
  by_cases h1 : w.gitConfigOk cfg.gitContext "user.name" cfg.username <;>
    by_cases h2 : w.gitConfigOk cfg.gitContext "user.email" cfg.username <;>
      simp [h1, h2, isKeyOrSigning, isKeygen, isSigningWrite]

/-- Among key-generation and signing-write events, `setupSSH` emits
exactly the one key generation, whatever the command outcomes. -/
theorem setupSSH_filter_keysign (w : World) (cfg : Config) :
    (setupSSH w cfg).1.filter isKeyOrSigning =
      [Event.sshKeygen cfg.sshPath cfg.email] := by
  unfold setupSSH generateSSH
  by_cases hk : w.sshKeygenOk cfg.sshPath cfg.email <;>
    by_cases ha : w.sshAddOk cfg.sshPath <;>
      simp [hk, ha, isKeyOrSigning, isKeygen, isSigningWrite]

/-- When the SSH step was not skipped, `setupSigning` generates no
key. -/
theorem setupSigning_filter_keygen_of_not_ignore (w : World) (cfg : Config)
    (h : cfg.ignoreSSH = false) :
    (setupSigning w cfg).1.filter isKeygen = [] := by
  unfold setupSigning
  by_cases s1 : w.gitConfigOk cfg.gitContext "gpg.format" "ssh" <;>
    by_cases s2 : w.gitConfigOk cfg.gitContext "user.signingkey" cfg.sshPath <;>
      by_cases s3 : w.gitConfigOk cfg.gitContext "commit.gpgsign" "true" <;>
        simp [h, s1, s2, s3, isKeygen]

/-- The summary step issues no key generation and no signing write. -/
theorem almostDone_filter_keysign (w : World) (cfg : Config) :
    (almostDone w cfg).1.filter isKeyOrSigning = [] := by
  unfold almostDone
  cases hr : w.readFile (cfg.sshPath ++ ".pub") <;>
    simp [hr, isKeyOrSigning, isKeygen, isSigningWrite, List.filter_map,
          almostDoneLines]

/-- Every git configuration command `setupGit` issues before its last
one succeeded. -/
theorem setupGit_dropLast_ok (w : World) (cfg : Config) :
    (((setupGit w cfg).1.filter isGitConfigEv).dropLast).all (gitEventOk w)
      = true := by
  unfold setupGit
  by_cases h1 : w.gitConfigOk cfg.gitContext "user.name" cfg.username <;>
    by_cases h2 : w.gitConfigOk cfg.gitContext "user.email" cfg.username <;>
      simp [h1, h2, isGitConfigEv, gitEventOk]

/-- If `setupGit` returned nil, every git configuration command it
issued succeeded. -/
theorem setupGit_none_all_ok (w : World) (cfg : Config)
    (h : (setupGit w cfg).2 = none) :
    ((setupGit w cfg).1.filter isGitConfigEv).all (gitEventOk w) = true := by
  unfold setupGit at *
  by_cases h1 : w.gitConfigOk cfg.gitContext "user.name" cfg.username <;>
    by_cases h2 : w.gitConfigOk cfg.gitContext "user.email" cfg.username <;>
      simp_all [isGitConfigEv, gitEventOk]

/-- `setupSSH` issues no git configuration command. -/
theorem setupSSH_filter_git (w : World) (cfg : Config) :
    (setupSSH w cfg).1.filter isGitConfigEv = [] := by
  unfold setupSSH generateSSH
  by_cases hk : w.sshKeygenOk cfg.sshPath cfg.email <;>
    by_cases ha : w.sshAddOk cfg.sshPath <;>
      simp [hk, ha, isGitConfigEv]

/-- Every git configuration command `setupSigning` issues before its
last one succeeded. -/
theorem setupSigning_dropLast_ok (w : World) (cfg : Config) :
    (((setupSigning w cfg).1.filter isGitConfigEv).dropLast).all (gitEventOk w)
      = true := by
  unfold setupSigning generateSSH
  by_cases hI : cfg.ignoreSSH <;>
    by_cases hk : w.sshKeygenOk cfg.sshPath cfg.email <;>
      by_cases s1 : w.gitConfigOk cfg.gitContext "gpg.format" "ssh" <;>
        by_cases s2 : w.gitConfigOk cfg.gitContext "user.signingkey" cfg.sshPath <;>
          by_cases s3 : w.gitConfigOk cfg.gitContext "commit.gpgsign" "true" <;>
            simp [hI, hk, s1, s2, s3, isGitConfigEv, gitEventOk]

/-- If `setupSigning` returned nil, every git configuration command it
issued succeeded. -/
theorem setupSigning_none_all_ok (w : World) (cfg : Config)
    (h : (setupSigning w cfg).2 = none) :
    ((setupSigning w cfg).1.filter isGitConfigEv).all (gitEventOk w) = true := by
  unfold setupSigning generateSSH at *
  by_cases hI : cfg.ignoreSSH <;>
    by_cases hk : w.sshKeygenOk cfg.sshPath cfg.email <;>
      by_cases s1 : w.gitConfigOk cfg.gitContext "gpg.format" "ssh" <;>
        by_cases s2 : w.gitConfigOk cfg.gitContext "user.signingkey" cfg.sshPath <;>
          by_cases s3 : w.gitConfigOk cfg.gitContext "commit.gpgsign" "true" <;>
            simp_all [isGitConfigEv, gitEventOk]

/-- The summary step issues no git configuration command. -/
theorem almostDone_filter_git (w : World) (cfg : Config) :
    (almostDone w cfg).1.filter isGitConfigEv = [] := by
  unfold almostDone
  cases hr : w.readFile (cfg.sshPath ++ ".pub") <;>
    simp [hr, isGitConfigEv, List.filter_map, almostDoneLines]

/-- `setupGit` generates no key. -/
theorem setupGit_filter_keygen (w : World) (cfg : Config) :
    (setupGit w cfg).1.filter isKeygen = [] := by
  unfold setupGit
  by_cases h1 : w.gitConfigOk cfg.gitContext "user.name" cfg.username <;>
    by_cases h2 : w.gitConfigOk cfg.gitContext "user.email" cfg.username <;>
      simp [h1, h2, isKeygen]

/-- `setupSSH` invokes key generation exactly once, whatever the
command outcomes. -/
theorem setupSSH_filter_keygen (w : World) (cfg : Config) :
    (setupSSH w cfg).1.filter isKeygen =
      [Event.sshKeygen cfg.sshPath cfg.email] := by
  unfold setupSSH generateSSH
  by_cases hk : w.sshKeygenOk cfg.sshPath cfg.email <;>
    by_cases ha : w.sshAddOk cfg.sshPath <;>
      simp [hk, ha, isKeygen]

/-- When the SSH step was skipped, `setupSigning` invokes key
generation exactly once. -/
theorem setupSigning_filter_keygen_of_ignore (w : World) (cfg : Config)
    (h : cfg.ignoreSSH = true) :
    (setupSigning w cfg).1.filter isKeygen =
      [Event.sshKeygen cfg.sshPath cfg.email] := by
  unfold setupSigning generateSSH
  by_cases hk : w.sshKeygenOk cfg.sshPath cfg.email <;>
    by_cases s1 : w.gitConfigOk cfg.gitContext "gpg.format" "ssh" <;>
      by_cases s2 : w.gitConfigOk cfg.gitContext "user.signingkey" cfg.sshPath <;>
        by_cases s3 : w.gitConfigOk cfg.gitContext "commit.gpgsign" "true" <;>
          simp [h, hk, s1, s2, s3, isKeygen]

/-- The summary step generates no key. -/
theorem almostDone_filter_keygen (w : World) (cfg : Config) :
    (almostDone w cfg).1.filter isKeygen = [] := by
  unfold almostDone
  cases hr : w.readFile (cfg.sshPath ++ ".pub") <;>
    simp [hr, isKeygen, List.filter_map, almostDoneLines]

/-- After a successful `setupGit`, a run with the SSH step enabled
generates exactly one key, and that generation precedes every signing
configuration write. -/
theorem runFromConfig_keygen_part1 (w : World) (cfg : Config)
    (hG : (setupGit w cfg).2 = none) (hI : cfg.ignoreSSH = false) :
    countKeygen (runFromConfig w cfg).events = 1 ∧
    ((runFromConfig w cfg).events.filter isKeyOrSigning).head? =
      some (Event.sshKeygen cfg.sshPath cfg.email) := by
  rcases hS : (setupSSH w cfg).2 with _ | e2
  · by_cases hSg : cfg.signing
    · rcases hE : (setupSigning w cfg).2 with _ | e3
      · have hR : runFromConfig w cfg =
            ⟨(setupGit w cfg).1 ++ (setupSSH w cfg).1 ++ (setupSigning w cfg).1 ++
               (almostDone w { cfg with sshPath := hardcodedSSHPath }).1,
             Outcome.exitZero⟩ := by
          simp [runFromConfig, hG, hI, hSg, hE, hS]
        rw [hR]
        constructor
        · simp [countKeygen, List.filter_append, setupGit_filter_keygen,
                setupSSH_filter_keygen, almostDone_filter_keygen,
                setupSigning_filter_keygen_of_not_ignore w cfg hI]
        · simp [List.filter_append, setupGit_filter_keysign,
                setupSSH_filter_keysign, almostDone_filter_keysign]
      · have hR : runFromConfig w cfg =
            ⟨(setupGit w cfg).1 ++ (setupSSH w cfg).1 ++ (setupSigning w cfg).1 ++
               [Event.printFatal], Outcome.exitNonZero⟩ := by
          simp [runFromConfig, hG, hI, hSg, hE, hS]
        rw [hR]
        constructor
        · simp [countKeygen, List.filter_append, setupGit_filter_keygen,
                setupSSH_filter_keygen, isKeygen,
                setupSigning_filter_keygen_of_not_ignore w cfg hI]
        · simp [List.filter_append, setupGit_filter_keysign,
                setupSSH_filter_keysign, isKeyOrSigning, isKeygen, isSigningWrite]
    · have hR : runFromConfig w cfg =
          ⟨(setupGit w cfg).1 ++ (setupSSH w cfg).1 ++ ([] : List Event) ++
             (almostDone w { cfg with sshPath := hardcodedSSHPath }).1,
           Outcome.exitZero⟩ := by
        simp [runFromConfig, hG, hI, hSg, hS]
      rw [hR]
      constructor
      · simp [countKeygen, List.filter_append, setupGit_filter_keygen,
              setupSSH_filter_keygen, almostDone_filter_keygen]
      · simp [List.filter_append, setupGit_filter_keysign,
              setupSSH_filter_keysign, almostDone_filter_keysign]
  · have hR : runFromConfig w cfg =
        ⟨(setupGit w cfg).1 ++ (setupSSH w cfg).1 ++ [Event.printFatal],
         Outcome.exitNonZero⟩ := by
      simp [runFromConfig, hG, hI, hS]
    rw [hR]
    constructor
    · simp [countKeygen, List.filter_append, setupGit_filter_keygen,
            setupSSH_filter_keygen, isKeygen]
    · simp [List.filter_append, setupGit_filter_keysign,
            setupSSH_filter_keysign, isKeyOrSigning, isKeygen, isSigningWrite]

/-- After a successful `setupGit`, a run with the SSH step skipped and
signing selected generates exactly one key, and every key generation
in the trace comes from the signing step. -/
theorem runFromConfig_keygen_part2 (w : World) (cfg : Config)
    (hG : (setupGit w cfg).2 = none) (hI : cfg.ignoreSSH = true)
    (hSg : cfg.signing = true) :
    countKeygen (runFromConfig w cfg).events = 1 ∧
    (runFromConfig w cfg).events.filter isKeygen =
      (setupSigning w cfg).1.filter isKeygen := by
  rcases hE : (setupSigning w cfg).2 with _ | e3
  · have hR : runFromConfig w cfg =
        ⟨(setupGit w cfg).1 ++ ([] : List Event) ++ (setupSigning w cfg).1 ++
           (almostDone w { cfg with sshPath := hardcodedSSHPath }).1,
         Outcome.exitZero⟩ := by
      simp [runFromConfig, hG, hI, hSg, hE]
    rw [hR]
    constructor
    · simp [countKeygen, List.filter_append, setupGit_filter_keygen,
            almostDone_filter_keygen,
            setupSigning_filter_keygen_of_ignore w cfg hI]
    · simp [List.filter_append, setupGit_filter_keygen,
            almostDone_filter_keygen]
  · have hR : runFromConfig w cfg =
        ⟨(setupGit w cfg).1 ++ ([] : List Event) ++ (setupSigning w cfg).1 ++
           [Event.printFatal], Outcome.exitNonZero⟩ := by
      simp [runFromConfig, hG, hI, hSg, hE]
    rw [hR]
    constructor
    · simp [countKeygen, List.filter_append, setupGit_filter_keygen,
            isKeygen, setupSigning_filter_keygen_of_ignore w cfg hI]
    · simp [List.filter_append, setupGit_filter_keygen, isKeygen]

/-- Every event of a run comes from one of the four steps or is the
fatal banner or the plain completion line. -/
theorem runFromConfig_mem (w : World) (cfg : Config) (e : Event)
    (he : e ∈ (runFromConfig w cfg).events) :
    e ∈ (setupGit w cfg).1 ∨ e ∈ (setupSSH w cfg).1 ∨
    e ∈ (setupSigning w cfg).1 ∨
    e ∈ (almostDone w { cfg with sshPath := hardcodedSSHPath }).1 ∨
    e = Event.printFatal ∨ e = Event.printSuccess "Finished!" := by
  by_cases hI : cfg.ignoreSSH <;> by_cases hSg : cfg.signing <;>
    rcases hG : (setupGit w cfg).2 with _ | e1 <;>
      rcases hS : (setupSSH w cfg).2 with _ | e2 <;>
        rcases hE : (setupSigning w cfg).2 with _ | e3 <;>
          simp [runFromConfig, hI, hSg, hG, hS, hE, List.mem_append] at he <;>
            tauto

/-- `setupGit` never emits a key-generation event. -/
theorem setupGit_mem_no_keygen (w : World) (cfg : Config) (p c : String)
    (h : Event.sshKeygen p c ∈ (setupGit w cfg).1) : False := by
  unfold setupGit at h
  by_cases h1 : w.gitConfigOk cfg.gitContext "user.name" cfg.username <;>
    by_cases h2 : w.gitConfigOk cfg.gitContext "user.email" cfg.username <;>
      simp_all

/-- `setupGit` never writes `user.signingkey`. -/
theorem setupGit_mem_no_signingkey (w : World) (cfg : Config) (s v : String)
    (h : Event.gitConfig s "user.signingkey" v ∈ (setupGit w cfg).1) : False := by
  unfold setupGit at h
  by_cases h1 : w.gitConfigOk cfg.gitContext "user.name" cfg.username <;>
    by_cases h2 : w.gitConfigOk cfg.gitContext "user.email" cfg.username <;>
      simp_all

/-- Every key generation `setupSSH` emits uses the configured key
path. -/
theorem setupSSH_mem_keygen (w : World) (cfg : Config) (p c : String)
    (h : Event.sshKeygen p c ∈ (setupSSH w cfg).1) : p = cfg.sshPath := by
  unfold setupSSH generateSSH at h
  by_cases hk : w.sshKeygenOk cfg.sshPath cfg.email <;>
    by_cases ha : w.sshAddOk cfg.sshPath <;>
      simp_all

/-- `setupSSH` never emits a git configuration event. -/
theorem setupSSH_mem_no_git (w : World) (cfg : Config) (s k v : String)
    (h : Event.gitConfig s k v ∈ (setupSSH w cfg).1) : False := by
  unfold setupSSH generateSSH at h
  by_cases hk : w.sshKeygenOk cfg.sshPath cfg.email <;>
    by_cases ha : w.sshAddOk cfg.sshPath <;>
      simp_all

/-- Every key generation `setupSigning` emits uses the configured key
path. -/
theorem setupSigning_mem_keygen (w : World) (cfg : Config) (p c : String)
    (h : Event.sshKeygen p c ∈ (setupSigning w cfg).1) : p = cfg.sshPath := by
  unfold setupSigning generateSSH at h
  by_cases hI : cfg.ignoreSSH <;>
    by_cases hk : w.sshKeygenOk cfg.sshPath cfg.email <;>
      by_cases s1 : w.gitConfigOk cfg.gitContext "gpg.format" "ssh" <;>
        by_cases s2 : w.gitConfigOk cfg.gitContext "user.signingkey" cfg.sshPath <;>
          by_cases s3 : w.gitConfigOk cfg.gitContext "commit.gpgsign" "true" <;>
            simp_all

/-- Every `user.signingkey` write `setupSigning` emits uses the
configured key path as the value. -/
theorem setupSigning_mem_signingkey (w : World) (cfg : Config) (s v : String)
    (h : Event.gitConfig s "user.signingkey" v ∈ (setupSigning w cfg).1) :
    v = cfg.sshPath := by
  unfold setupSigning generateSSH at h
  by_cases hI : cfg.ignoreSSH <;>
    by_cases hk : w.sshKeygenOk cfg.sshPath cfg.email <;>
      by_cases s1 : w.gitConfigOk cfg.gitContext "gpg.format" "ssh" <;>
        by_cases s2 : w.gitConfigOk cfg.gitContext "user.signingkey" cfg.sshPath <;>
          by_cases s3 : w.gitConfigOk cfg.gitContext "commit.gpgsign" "true" <;>
            simp_all

/-- The summary step never emits a key-generation event. -/
theorem almostDone_mem_no_keygen (w : World) (cfg : Config) (p c : String)
    (h : Event.sshKeygen p c ∈ (almostDone w cfg).1) : False := by
  unfold almostDone at h
  cases hr : w.readFile (cfg.sshPath ++ ".pub") <;>
    simp_all [almostDoneLines]

/-- The summary step never emits a git configuration event. -/
theorem almostDone_mem_no_git (w : World) (cfg : Config) (s k v : String)
    (h : Event.gitConfig s k v ∈ (almostDone w cfg).1) : False := by
  unfold almostDone at h
  cases hr : w.readFile (cfg.sshPath ++ ".pub") <;>
    simp_all [almostDoneLines]


/-- Claim C1: the claim says the second git configuration invocation sets
`user.email` to the collected email value.  Evaluating `setupGit` at a
run with username `alice` and email `alice@example.com` (all commands
succeeding) shows the second write sets `user.email` to the USERNAME
value `alice`, and no event sets `user.email` to the email value:
main.go:162 passes `username` instead of `email`. -/
theorem setupGit_user_email_write_uses_username :
    (setupGit allOkWorld cfgDefault).1.filter isGitConfigEv =
      [Event.gitConfig "--global" "user.name" "alice",
       Event.gitConfig "--global" "user.email" "alice"] ∧
    Event.gitConfig "--global" "user.email" "alice@example.com" ∉
      (setupGit allOkWorld cfgDefault).1 := by decide

/-- Claim C2: the claim says the summary reads `<sshKeyPath>.pub` for the
key path collected by the prompter.  In a run where the user entered
`/home/alice/.ssh/mykey`, the summary reads
`/home/mason/.ssh/id_ed25519.pub` (the hardcoded path assigned on
main.go:52) and prints that file's contents; the user's public key
file is never read and its contents are never printed. -/
theorem summary_reads_hardcoded_path_not_prompted_path :
    Event.readPub "/home/mason/.ssh/id_ed25519.pub" ∈ runC2.events ∧
    Event.readPub "/home/alice/.ssh/mykey.pub" ∉ runC2.events ∧
    Event.printLine "MASON-KEY" ∈ runC2.events ∧
    Event.printLine "USER-KEY" ∉ runC2.events := by decide

/-- Claim C3: the claim says an unreadable public key file at summary time
is fatal (error printed, non-zero exit).  In a run where the read
fails, the process exits zero and prints no fatal banner: main.go:55
calls `almostDone()` and discards its returned error. -/
theorem unreadable_pubkey_run_exits_zero :
    runC3.outcome = Outcome.exitZero ∧
    Event.printFatal ∉ runC3.events ∧
    Event.readPub "/home/mason/.ssh/id_ed25519.pub" ∈ runC3.events := by decide

/-- Claim C9, counterexample: the claim says `sshKeyPath` is non-empty
whenever key generation runs.  In a run where the user submits an
empty key-path field (which the form accepts, the field having no
`Validate`), key generation is invoked with the empty path. -/
theorem keygen_runs_with_empty_path :
    Event.sshKeygen "" "alice@example.com" ∈
      (mainRun allOkWorld (some uAlice) inputEmptyPath).events := by decide

/-- Claim C10: the claim says the dereference of the current-user lookup is
safe even when the lookup fails.  When `user.Current()` fails (nil
user), `promptForm` dereferences the nil pointer on main.go:82 and the
run ends in a runtime panic; the lookup error bound on main.go:81 is
never checked. -/
theorem nil_user_lookup_panics :
    (mainRun allOkWorld none inputDefault).outcome = Outcome.runtimePanic := by
  decide

/-- Claim C8: prompt validation accepts exactly the non-empty usernames, and
exactly the email strings containing both an `@` and a `.`. -/
theorem validation_accepts_and_rejects (s : String) :
    (usernameValidate s = none ↔ s ≠ "") ∧
    (emailValidate s = none ↔
      (containsChar s '@' = true ∧ containsChar s '.' = true)) := by
  constructor
  · by_cases h : s = "" <;> simp [usernameValidate, h]
  · by_cases ha : containsChar s '@' <;> by_cases hd : containsChar s '.' <;>
      simp [emailValidate, ha, hd]

end JustSetupGit

namespace JustSetupGit

/-- Claim C4: in a run whose git identity setup succeeded, if skip-SSH
is false then key generation is invoked exactly once and, among
key-generation and git-signing-configuration events, the first is that
key generation; and if skip-SSH is true and signing is true then key
generation is invoked exactly once and every key-generation event of
the run comes from the signing step (the SSH step emits none). -/
theorem keygen_once_and_before_signing (w : World) (u : GoUser) (i : FormInput)
    (hv : validInput i)
    (h1 : w.gitConfigOk (mkConfig u i).gitContext "user.name"
            (mkConfig u i).username = true)
    (h2 : w.gitConfigOk (mkConfig u i).gitContext "user.email"
            (mkConfig u i).username = true) :
    (i.ignoreSSH = false →
      countKeygen (mainRun w (some u) i).events = 1 ∧
      ((mainRun w (some u) i).events.filter isKeyOrSigning).head? =
        some (Event.sshKeygen (mkConfig u i).sshPath (mkConfig u i).email)) ∧
    (i.ignoreSSH = true → i.signing = true →
      countKeygen (mainRun w (some u) i).events = 1 ∧
      (mainRun w (some u) i).events.filter isKeygen =
        (setupSigning w (mkConfig u i)).1.filter isKeygen) := by
  rw [mainRun_valid w u i hv]
  have hG : (setupGit w (mkConfig u i)).2 = none := by
    rw [setupGit_success w (mkConfig u i) h1 h2]
  constructor
  · intro hI
    exact runFromConfig_keygen_part1 w (mkConfig u i) hG (by simp [mkConfig, hI])
  · intro hI hSg
    exact runFromConfig_keygen_part2 w (mkConfig u i) hG (by simp [mkConfig, hI])
      (by simp [mkConfig, hSg])

/-- Witness for C4: in the all-success world with the default answers
(skip-SSH false), the run generates exactly one key and it precedes
every signing write. -/
theorem keygen_once_witness :
    countKeygen (mainRun allOkWorld (some uAlice) inputDefault).events = 1 ∧
    ((mainRun allOkWorld (some uAlice) inputDefault).events.filter
        isKeyOrSigning).head? =
      some (Event.sshKeygen (mkConfig uAlice inputDefault).sshPath
              (mkConfig uAlice inputDefault).email) :=
  (keygen_once_and_before_signing allOkWorld uAlice inputDefault
    ⟨by decide, by decide, by decide⟩ rfl rfl).1 rfl

/-- Claim C5: in every validly answered run, every git configuration
command issued before the last one succeeded (so nothing is issued
after a failure), and if any issued git configuration command failed
the process exits non-zero. -/
theorem gitconfig_failure_halts (w : World) (u : GoUser) (i : FormInput)
    (hv : validInput i) :
    ((((mainRun w (some u) i).events.filter isGitConfigEv).dropLast).all
        (gitEventOk w) = true) ∧
    (((mainRun w (some u) i).events.filter isGitConfigEv).all
        (gitEventOk w) = false →
      (mainRun w (some u) i).outcome = Outcome.exitNonZero) := by
  rw [mainRun_valid w u i hv]
  generalize mkConfig u i = cfg
  rcases hG : (setupGit w cfg).2 with _ | e1
  case some =>
    have hE : runFromConfig w cfg =
        ⟨(setupGit w cfg).1 ++ [Event.printFatal], Outcome.exitNonZero⟩ := by
      simp [runFromConfig, hG]
    rw [hE]
    constructor
    · have : ((setupGit w cfg).1 ++ [Event.printFatal]).filter isGitConfigEv
          = (setupGit w cfg).1.filter isGitConfigEv := by
        simp [List.filter_append, isGitConfigEv]
      simp only [this]
      exact setupGit_dropLast_ok w cfg
    · intro _; rfl
  case none =>
    have hGall := setupGit_none_all_ok w cfg hG
    by_cases hI : cfg.ignoreSSH
    · by_cases hSg : cfg.signing
      · rcases hE : (setupSigning w cfg).2 with _ | e3
        · have hsgall := setupSigning_none_all_ok w cfg hE
          have hR : runFromConfig w cfg =
              ⟨(setupGit w cfg).1 ++ ([] : List Event) ++ (setupSigning w cfg).1 ++
                 (almostDone w { cfg with sshPath := hardcodedSSHPath }).1,
               Outcome.exitZero⟩ := by
            simp [runFromConfig, hG, hI, hSg, hE]
          rw [hR]
          have hall : (((setupGit w cfg).1 ++ ([] : List Event) ++
              (setupSigning w cfg).1 ++
              (almostDone w { cfg with sshPath := hardcodedSSHPath }).1).filter
                isGitConfigEv).all (gitEventOk w) = true := by
            simp [List.filter_append, almostDone_filter_git, List.all_append,
                  hGall, hsgall]
          refine ⟨all_of_dropLast hall, fun hfalse => ?_⟩
          rw [hall] at hfalse
          cases hfalse
        · have hR : runFromConfig w cfg =
              ⟨(setupGit w cfg).1 ++ ([] : List Event) ++ (setupSigning w cfg).1 ++
                 [Event.printFatal], Outcome.exitNonZero⟩ := by
            simp [runFromConfig, hG, hI, hSg, hE]
          rw [hR]
          refine ⟨?_, fun _ => rfl⟩
          have hfe : (((setupGit w cfg).1 ++ ([] : List Event) ++
              (setupSigning w cfg).1 ++ [Event.printFatal]).filter isGitConfigEv)
              = (setupGit w cfg).1.filter isGitConfigEv ++
                (setupSigning w cfg).1.filter isGitConfigEv := by
            simp [List.filter_append, isGitConfigEv]
          rw [hfe]
          exact all_dropLast_append hGall (setupSigning_dropLast_ok w cfg)
      · have hR : runFromConfig w cfg =
            ⟨(setupGit w cfg).1 ++ ([] : List Event) ++ ([] : List Event) ++
               [Event.printSuccess "Finished!"], Outcome.exitZero⟩ := by
          simp [runFromConfig, hG, hI, hSg]
        rw [hR]
        have hall : (((setupGit w cfg).1 ++ ([] : List Event) ++ ([] : List Event) ++
            [Event.printSuccess "Finished!"]).filter isGitConfigEv).all
              (gitEventOk w) = true := by
          simp [List.filter_append, isGitConfigEv, hGall]
        refine ⟨all_of_dropLast hall, fun hfalse => ?_⟩
        rw [hall] at hfalse
        cases hfalse
    · rcases hS : (setupSSH w cfg).2 with _ | e2
      · by_cases hSg : cfg.signing
        · rcases hE : (setupSigning w cfg).2 with _ | e3
          · have hsgall := setupSigning_none_all_ok w cfg hE
            have hR : runFromConfig w cfg =
                ⟨(setupGit w cfg).1 ++ (setupSSH w cfg).1 ++ (setupSigning w cfg).1 ++
                   (almostDone w { cfg with sshPath := hardcodedSSHPath }).1,
                 Outcome.exitZero⟩ := by
              simp [runFromConfig, hG, hI, hSg, hE, hS]
            rw [hR]
            have hall : (((setupGit w cfg).1 ++ (setupSSH w cfg).1 ++
                (setupSigning w cfg).1 ++
                (almostDone w { cfg with sshPath := hardcodedSSHPath }).1).filter
                  isGitConfigEv).all (gitEventOk w) = true := by
              simp [List.filter_append, almostDone_filter_git, setupSSH_filter_git,
                    List.all_append, hGall, hsgall]
            refine ⟨all_of_dropLast hall, fun hfalse => ?_⟩
            rw [hall] at hfalse
            cases hfalse
          · have hR : runFromConfig w cfg =
                ⟨(setupGit w cfg).1 ++ (setupSSH w cfg).1 ++ (setupSigning w cfg).1 ++
                   [Event.printFatal], Outcome.exitNonZero⟩ := by
              simp [runFromConfig, hG, hI, hSg, hE, hS]
            rw [hR]
            refine ⟨?_, fun _ => rfl⟩
            have hfe : (((setupGit w cfg).1 ++ (setupSSH w cfg).1 ++
                (setupSigning w cfg).1 ++ [Event.printFatal]).filter isGitConfigEv)
                = (setupGit w cfg).1.filter isGitConfigEv ++
                  (setupSigning w cfg).1.filter isGitConfigEv := by
              simp [List.filter_append, isGitConfigEv, setupSSH_filter_git]
            rw [hfe]
            exact all_dropLast_append hGall (setupSigning_dropLast_ok w cfg)
        · have hR : runFromConfig w cfg =
              ⟨(setupGit w cfg).1 ++ (setupSSH w cfg).1 ++ ([] : List Event) ++
                 (almostDone w { cfg with sshPath := hardcodedSSHPath }).1,
               Outcome.exitZero⟩ := by
            simp [runFromConfig, hG, hI, hSg, hS]
          rw [hR]
          have hall : (((setupGit w cfg).1 ++ (setupSSH w cfg).1 ++
              ([] : List Event) ++
              (almostDone w { cfg with sshPath := hardcodedSSHPath }).1).filter
                isGitConfigEv).all (gitEventOk w) = true := by
            simp [List.filter_append, almostDone_filter_git, setupSSH_filter_git,
                  List.all_append, hGall]
          refine ⟨all_of_dropLast hall, fun hfalse => ?_⟩
          rw [hall] at hfalse
          cases hfalse
      · have hR : runFromConfig w cfg =
            ⟨(setupGit w cfg).1 ++ (setupSSH w cfg).1 ++ [Event.printFatal],
             Outcome.exitNonZero⟩ := by
          simp [runFromConfig, hG, hI, hS]
        rw [hR]
        refine ⟨?_, fun _ => rfl⟩
        have hfe : (((setupGit w cfg).1 ++ (setupSSH w cfg).1 ++
            [Event.printFatal]).filter isGitConfigEv)
            = (setupGit w cfg).1.filter isGitConfigEv := by
          simp [List.filter_append, isGitConfigEv, setupSSH_filter_git]
        rw [hfe]
        exact all_of_dropLast hGall

/-- Witness for C5: in a world where the `user.email` write fails, the
default run exits non-zero. -/
theorem gitconfig_failure_halts_witness :
    (mainRun worldGitFail (some uAlice) inputDefault).outcome =
      Outcome.exitNonZero :=
  (gitconfig_failure_halts worldGitFail uAlice inputDefault
    ⟨by decide, by decide, by decide⟩).2 (by decide)

/-- Claim C6: with skip-SSH true, signing false and both identity
writes succeeding, the run consists of exactly the two git
configuration writes (`user.name` then `user.email`), their success
lines and the plain completion line; no key file is read and the
process exits zero. -/
theorem skip_ssh_no_signing_two_writes (w : World) (u : GoUser) (i : FormInput)
    (hv : validInput i) (hI : i.ignoreSSH = true) (hSg : i.signing = false)
    (h1 : w.gitConfigOk (mkConfig u i).gitContext "user.name"
            (mkConfig u i).username = true)
    (h2 : w.gitConfigOk (mkConfig u i).gitContext "user.email"
            (mkConfig u i).username = true) :
    (mainRun w (some u) i).events =
      [Event.gitConfig (mkConfig u i).gitContext "user.name" (mkConfig u i).username,
       Event.printSuccess "Successfully set git username",
       Event.gitConfig (mkConfig u i).gitContext "user.email" (mkConfig u i).username,
       Event.printSuccess "Successfully set git email",
       Event.printSuccess "Finished!"] ∧
    ((mainRun w (some u) i).events.filter isGitConfigEv).length = 2 ∧
    (mainRun w (some u) i).events.filter isReadPub = [] ∧
    (mainRun w (some u) i).outcome = Outcome.exitZero := by
  rw [mainRun_valid w u i hv]
  have hIc : (mkConfig u i).ignoreSSH = true := by simp [mkConfig, hI]
  have hSgc : (mkConfig u i).signing = false := by simp [mkConfig, hSg]
  refine ⟨?_, ?_, ?_, ?_⟩ <;>
    simp [runFromConfig, setupGit_success w (mkConfig u i) h1 h2, hIc, hSgc,
          isGitConfigEv, isReadPub]

/-- Witness for C6: the all-success world with SSH skipped performs
two git writes, reads nothing, and exits zero. -/
theorem skip_ssh_witness :
    ((mainRun allOkWorld (some uAlice) inputSkip).events.filter
        isGitConfigEv).length = 2 ∧
    (mainRun allOkWorld (some uAlice) inputSkip).events.filter isReadPub = [] ∧
    (mainRun allOkWorld (some uAlice) inputSkip).outcome = Outcome.exitZero :=
  (skip_ssh_no_signing_two_writes allOkWorld uAlice inputSkip
    ⟨by decide, by decide, by decide⟩ rfl rfl rfl rfl).2

/-- Claim C7: when the SSH step runs, every other command succeeds but
`ssh-add` fails, the SSH step still returns nil, the warning line is
printed, and the run proceeds to the final summary (reading the public
key file and printing its contents) and exits zero. -/
theorem sshadd_failure_nonfatal (w : World) (u : GoUser) (i : FormInput)
    (pub : String) (hv : validInput i) (hI : i.ignoreSSH = false)
    (hgit : ∀ s k v, w.gitConfigOk s k v = true)
    (hkey : ∀ p c, w.sshKeygenOk p c = true)
    (hadd : w.sshAddOk (mkConfig u i).sshPath = false)
    (hread : w.readFile (hardcodedSSHPath ++ ".pub") = some pub) :
    (setupSSH w (mkConfig u i)).2 = none ∧
    Event.printWarning
        ("Warning Failed to add SSH key using ssh-add; if the key is not already added, try running ssh-add "
          ++ (mkConfig u i).sshPath) ∈ (mainRun w (some u) i).events ∧
    Event.readPub (hardcodedSSHPath ++ ".pub") ∈ (mainRun w (some u) i).events ∧
    Event.printLine pub ∈ (mainRun w (some u) i).events ∧
    (mainRun w (some u) i).outcome = Outcome.exitZero := by
  rw [mainRun_valid w u i hv]
  have hIc : (mkConfig u i).ignoreSSH = false := by simp [mkConfig, hI]
  refine ⟨?_, ?_, ?_, ?_, ?_⟩ <;>
    by_cases hSg : (mkConfig u i).signing <;>
      simp [runFromConfig, setupGit, setupSSH, generateSSH, setupSigning,
            almostDone, hgit, hkey, hadd, hIc, hSg, hread, almostDoneLines,
            List.mem_append]

/-- Witness for C7: with `ssh-add` failing and everything else
succeeding, the default run still reads the summary key file and exits
zero. -/
theorem sshadd_failure_witness :
    Event.readPub (hardcodedSSHPath ++ ".pub") ∈
      (mainRun worldAddFail (some uAlice) inputDefault).events ∧
    (mainRun worldAddFail (some uAlice) inputDefault).outcome =
      Outcome.exitZero :=
  ⟨(sshadd_failure_nonfatal worldAddFail uAlice inputDefault "PUBKEYDATA"
      ⟨by decide, by decide, by decide⟩ rfl (fun _ _ _ => rfl) (fun _ _ => rfl)
      rfl rfl).2.2.1,
   (sshadd_failure_nonfatal worldAddFail uAlice inputDefault "PUBKEYDATA"
      ⟨by decide, by decide, by decide⟩ rfl (fun _ _ _ => rfl) (fun _ _ => rfl)
      rfl rfl).2.2.2.2⟩

/-- Claim C9, amended: provided the key path held in the configuration
state after the prompt is non-empty (in particular whenever the user
keeps the pre-filled home-directory default), every key generation and
every `user.signingkey` write in the run uses a non-empty path. -/
theorem sshpath_nonempty_propagates (w : World) (u : GoUser) (i : FormInput)
    (hv : validInput i) (hne : (mkConfig u i).sshPath ≠ "") :
    (∀ p c, Event.sshKeygen p c ∈ (mainRun w (some u) i).events → p ≠ "") ∧
    (∀ s v, Event.gitConfig s "user.signingkey" v ∈ (mainRun w (some u) i).events →
      v ≠ "") := by
  rw [mainRun_valid w u i hv]
  constructor
  · intro p c hmem
    rcases runFromConfig_mem w (mkConfig u i) _ hmem with h | h | h | h | h | h
    · exact absurd h (fun hh => setupGit_mem_no_keygen w _ p c hh)
    · rw [setupSSH_mem_keygen w _ p c h]; exact hne
    · rw [setupSigning_mem_keygen w _ p c h]; exact hne
    · exact absurd h (fun hh => almostDone_mem_no_keygen w _ p c hh)
    · simp at h
    · simp at h
  · intro s v hmem
    rcases runFromConfig_mem w (mkConfig u i) _ hmem with h | h | h | h | h | h
    · exact absurd h (fun hh => setupGit_mem_no_signingkey w _ s v hh)
    · exact absurd h (fun hh => setupSSH_mem_no_git w _ s "user.signingkey" v hh)
    · rw [setupSigning_mem_signingkey w _ s v h]; exact hne
    · exact absurd h (fun hh => almostDone_mem_no_git w _ s "user.signingkey" v hh)
    · simp at h
    · simp at h

/-- Witness for the amended C9: the default run (pre-filled key path
kept) generates its key at the non-empty default path. -/
theorem sshpath_nonempty_witness :
    Event.sshKeygen "/home/alice/.ssh/id_ed25519" "alice@example.com" ∈
      (mainRun allOkWorld (some uAlice) inputDefault).events ∧
    ("/home/alice/.ssh/id_ed25519" : String) ≠ "" :=
  ⟨by decide,
   (sshpath_nonempty_propagates allOkWorld uAlice inputDefault
      ⟨by decide, by decide, by decide⟩ (by decide)).1
     "/home/alice/.ssh/id_ed25519" "alice@example.com" (by decide)⟩

end JustSetupGit
